import Mathlib

/-
Shallow embedding of the node-orchestration and batch-dispatch engine of the
servidorApi repository, together with theorems checking its natural-language
specification.

Embedded source files:
  * src/services/procesador_imagen_individual.py  (batch coordinator)
  * src/services/procesador_lotes.py              (legacy batch coordinator)
  * src/services/ClienteNodoWorker.py             (remote job client + balancer)
  * src/services/GestorNodoImpl.py                (node manager used by the
                                                   individual-batch coordinator)
  * src/services/gestor_nodos.py                  (legacy stateful node manager)

External effects (database sessions, Pyro5 proxies, the file system, thread
scheduling) are modelled as explicit oracles and state records; every Python
function of interest becomes a total Lean function over those.
-/

set_option autoImplicit false

namespace ServidorApi

/-! ## Utilities -/

/-- Rounding to two decimals, as Python round(x, 2) over exact rationals.
Python rounds ties at the third decimal half-to-even over binary floats; the
theorems below relate code and spec through this single rounding function, so
the tie rule is never exercised. -/
def roundTo2 (q : ℚ) : ℚ := (⌊q * 100 + 1 / 2⌋ : ℚ) / 100

/-- Test whether the second character list starts the first. -/
def empiezaCon : List Char → List Char → Bool
  | _, [] => true
  | [], _ :: _ => false
  | c :: cs, d :: ds => c == d && empiezaCon cs ds

/-- Test whether the second character list occurs inside the first. -/
def contieneLista : List Char → List Char → Bool
  | [], sub => sub.isEmpty
  | c :: cs, sub => empiezaCon (c :: cs) sub || contieneLista cs sub

/-- Substring test on strings. -/
def contieneSubcadena (s sub : String) : Bool :=
  contieneLista s.data sub.data

/-- Lowercase rendering of a string, character by character. -/
def enMinusculas (s : String) : String :=
  ⟨s.data.map Char.toLower⟩

/-! ## Batch status query

Embedding of obtener_estado_lote (src/services/procesador_imagen_individual.py,
lines 453-512).  The cache/database resolution that produces the list of per-job
records is upstream; once the ownership check and the id lookup have resolved,
the function consolidates the list of job states (field estado of each
ProcesamientoIndividual row).  We model it on that list of states. -/

/-- Consolidated batch status record, as returned by obtener_estado_lote.
The fecha_inicio field (a wall-clock timestamp) is omitted. -/
structure EstadoLote where
  id_lote : String
  estado : String
  total_imagenes : Nat
  completados : Nat
  errores : Nat
  procesando : Nat
  pendientes : Nat
  progreso_porcentaje : ℚ
deriving Repr, DecidableEq

/-- Count of job records in a given state (the sum(1 for p ...) expressions). -/
def contarEstado (estados : List String) (e : String) : Nat :=
  estados.countP (· == e)

/-- Embedding of obtener_estado_lote on the resolved list of job states.
Returns none when no job records resolve (the not-found branch). -/
def obtenerEstadoLote (idLote : String) (estados : List String) : Option EstadoLote :=
  if estados.isEmpty then none
  else
    let total := estados.length
    let completados := contarEstado estados "completado"
    let errores := contarEstado estados "error"
    let procesando := contarEstado estados "procesando"
    let pendientes := contarEstado estados "pendiente"
    let estadoGeneral :=
      if completados = total then "completado"
      else if errores = total then "fallido"
      else if completados > 0 ∨ errores > 0 then "procesando"
      else "pendiente"
    some
      { id_lote := idLote
        estado := estadoGeneral
        total_imagenes := total
        completados := completados
        errores := errores
        procesando := procesando
        pendientes := pendientes
        progreso_porcentaje :=
          roundTo2 (if total > 0 then (completados : ℚ) / (total : ℚ) * 100 else 0) }

/-- Terminal job states: completado or error. -/
def esTerminal (e : String) : Bool :=
  e == "completado" || e == "error"

/-- Modelled from the spec's words (aggregate rule for batch status), for
comparison with the code's consolidation: completed if all jobs completed,
failed if all jobs failed, partial when every job is terminal but outcomes are
mixed, processing while any job remains non-terminal. -/
def estadoLoteSegunSpec (estados : List String) : String :=
  if estados.all (· == "completado") then "completado"
  else if estados.all (· == "error") then "fallido"
  else if estados.all esTerminal then "parcial"
  else "procesando"

/-! ## Parallel batch processing under the overall deadline

Embedding of _procesar_lote_async (src/services/procesador_imagen_individual.py,
lines 176-255).  Each per-image future is modelled by whether it completes
before the as_completed deadline and, if so, whether it reports success.  The
TimeoutError branch forces every still-pending job to estado "error" with the
message "Timeout en procesamiento". -/

/-- Overall deadline in seconds passed to as_completed. -/
def timeoutLoteSegundos : Nat := 3600

/-- Simulated per-image dispatch: whether the future finishes within the batch
deadline and, when it does, whether the result reports exito. -/
structure TrabajoSimulado where
  terminaEnPlazo : Bool
  exito : Bool
  error : Option String
deriving Repr, DecidableEq

/-- Persisted per-job record fields touched by the coordinator. -/
structure RegistroJob where
  estado : String
  mensaje_error : Option String
deriving Repr, DecidableEq

/-- Job record once _procesar_lote_async has stopped waiting: jobs whose future
completed carry their own outcome; jobs still pending at the deadline are
forced to estado "error" with message "Timeout en procesamiento". -/
def registroTrasLote (t : TrabajoSimulado) : RegistroJob :=
  if t.terminaEnPlazo then
    if t.exito then { estado := "completado", mensaje_error := none }
    else { estado := "error", mensaje_error := t.error }
  else { estado := "error", mensaje_error := some "Timeout en procesamiento" }

/-- Final batch state and counters computed by _procesar_lote_async: completados
counts futures that finished in time with exito; errores counts finished
failures plus every job still pending at the deadline. -/
def procesarLoteAsync (jobs : List TrabajoSimulado) : String × Nat × Nat :=
  let completados := jobs.countP (fun t => t.terminaEnPlazo && t.exito)
  let errores := jobs.countP (fun t => t.terminaEnPlazo && !t.exito)
      + jobs.countP (fun t => !t.terminaEnPlazo)
  let estadoFinal :=
    if completados = jobs.length then "completado"
    else if completados > 0 then "parcial"
    else "fallido"
  (estadoFinal, completados, errores)

/-! ## Batch submission

Embedding of ProcesadorLoteIndividual.procesar_lote together with
_crear_registros_individuales (src/services/procesador_imagen_individual.py,
lines 42-174).  The database assigns sequential id_procesamiento values
(autoincrement, modelled by a nextId counter); the executor.submit call at line
92 only enqueues _procesar_lote_async, so the submission's returned value is
fixed before any dispatch runs. -/

/-- Input image descriptor as received by procesar_lote. -/
structure ImagenEntrada where
  nombre_original : String
  formato_original : String
  ruta_temporal : String
  transformaciones : List String
  tamanio_bytes : Nat
deriving Repr, DecidableEq

/-- Persisted ProcesamientoIndividual row fields created at submission. -/
structure RegistroProcesamiento where
  id_usuario : Nat
  nombre_original : String
  ruta_entrada : String
  estado : String
deriving Repr, DecidableEq

/-- Cached per-batch entry in lotes_activos. -/
structure InfoLote where
  id_usuario : Nat
  total_imagenes : Nat
  ids_procesamiento : List Nat
  estado : String
deriving Repr, DecidableEq

/-- Coordinator state: autoincrement counter, persisted job rows and the
lotes_activos cache. -/
structure EstadoCoordinador where
  nextId : Nat
  registros : List (Nat × RegistroProcesamiento)
  lotesActivos : List (String × InfoLote)
deriving Repr, DecidableEq

/-- Embedding of _crear_registros_individuales: one pendiente row per image,
ids assigned by the database sequence. -/
def crearRegistrosIndividuales (idUsuario : Nat) (imagenes : List ImagenEntrada)
    (s : EstadoCoordinador) : List Nat × EstadoCoordinador :=
  let ids := (List.range imagenes.length).map (fun i => s.nextId + i)
  let filas := imagenes.enum.map (fun p =>
    (s.nextId + p.1,
      { id_usuario := idUsuario
        nombre_original := p.2.nombre_original
        ruta_entrada := p.2.ruta_temporal
        estado := "pendiente" : RegistroProcesamiento }))
  (ids, { s with nextId := s.nextId + imagenes.length, registros := s.registros ++ filas })

/-- Value returned by procesar_lote. -/
structure RespuestaLote where
  ids_procesamiento : List Nat
  total_imagenes : Nat
deriving Repr, DecidableEq

/-- Embedding of procesar_lote: create the rows, initialize the cache entry,
enqueue the asynchronous fan-out, and return the id list and image count.
The enqueued dispatch is modelled separately (aplicarResultados); nothing of it
enters this function. -/
def procesarLote (idLote : String) (idUsuario : Nat) (imagenes : List ImagenEntrada)
    (s : EstadoCoordinador) : RespuestaLote × EstadoCoordinador :=
  let (ids, s1) := crearRegistrosIndividuales idUsuario imagenes s
  let s2 := { s1 with
    lotesActivos :=
      (idLote,
        { id_usuario := idUsuario
          total_imagenes := imagenes.length
          ids_procesamiento := ids
          estado := "procesando" : InfoLote }) :: s1.lotesActivos }
  ({ ids_procesamiento := ids, total_imagenes := imagenes.length }, s2)

/-- Later, out of line, the worker pool resolves each created job; the oracle
says which job ids eventually succeed.  This runs strictly after procesar_lote
has returned. -/
def aplicarResultados (oracle : Nat → Bool) (ids : List Nat)
    (s : EstadoCoordinador) : EstadoCoordinador :=
  { s with registros := s.registros.map (fun fila =>
      if ids.contains fila.1 then
        (fila.1, { fila.2 with estado := if oracle fila.1 then "completado" else "error" })
      else fila) }

/-- Whole pipeline: submission followed by the asynchronous completion.  The
pair's first component is what the caller of procesar_lote received. -/
def procesarLoteConResultados (oracle : Nat → Bool) (idLote : String) (idUsuario : Nat)
    (imagenes : List ImagenEntrada) (s : EstadoCoordinador) :
    RespuestaLote × EstadoCoordinador :=
  let (resp, s1) := procesarLote idLote idUsuario imagenes s
  (resp, aplicarResultados oracle resp.ids_procesamiento s1)

/-- Submission response assembled by the HTTP route (POST /procesar of
src/routes/imagen_individual_routes.py, lines 335-343): the generated batch id
together with the fields procesar_lote returned (static message, timestamp and
size fields omitted). -/
def respuestaRutaLote (idLote : String) (r : RespuestaLote) : String × List Nat × Nat :=
  (idLote, r.ids_procesamiento, r.total_imagenes)

/-! ## Legacy batch submission

Embedding of ProcesadorLotesImpl.crear_solicitud_procesamiento
(src/services/procesador_lotes.py, lines 22-119).  That function starts one
thread per image, joins them all, and only then returns: the outcomes list is
fully consumed before the return value is built. -/

/-- Value returned by crear_solicitud_procesamiento (fecha_envio omitted). -/
structure RespuestaSolicitud where
  id_solicitud : Nat
  estado : String
  imagenes_procesadas : Nat
  imagenes_exitosas : Nat
deriving Repr, DecidableEq

/-- Embedding of crear_solicitud_procesamiento: resultados holds the exito flag
each joined thread appended. -/
def crearSolicitudProcesamiento (idSolicitud : Nat) (resultados : List Bool) :
    RespuestaSolicitud :=
  let exitosos := resultados.countP (· == true)
  let estadoFinal :=
    if exitosos = resultados.length then "completado"
    else if exitosos > 0 then "parcial"
    else "fallido"
  { id_solicitud := idSolicitud
    estado := estadoFinal
    imagenes_procesadas := resultados.length
    imagenes_exitosas := exitosos }

/-! ## Remote job client

Embedding of ClienteNodoWorker.enviar_trabajo_con_archivos
(src/services/ClienteNodoWorker.py, lines 171-290).  Proxy resolution, the file
system, the remote call and the result write are modelled by an environment
record; the second component of the returned pair counts how many times the
node's remote processing capability (procesar_con_archivo) was invoked. -/

/-- Per-call RPC timeout in seconds (ClienteNodoWorker default). -/
def timeoutRPC : Nat := 300

/-- Response dictionary returned by the node's procesar_con_archivo. -/
structure RespuestaNodo where
  exito : Bool
  imagen_resultado : Option String
  error : Option String
deriving Repr, DecidableEq

/-- Outcome of the remote procesar_con_archivo call: Pyro timeout, Pyro
communication error, any other raised exception, or a returned response. -/
inductive LlamadaNodo where
  | timeout
  | commError
  | exc (msg : String)
  | ok (resp : RespuestaNodo)
deriving Repr, DecidableEq

/-- Environment of one dispatch: whether the proxy lookup succeeds, whether the
input path exists, what the remote call does, and whether saving the returned
result raises (some msg) or succeeds (none). -/
structure EntornoDispatch where
  proxyDisponible : Bool
  rutaEntradaExiste : Bool
  llamada : LlamadaNodo
  fallaEscritura : Option String
deriving Repr, DecidableEq

/-- Structured outcome dictionary of enviar_trabajo_con_archivos (the
id_trabajo/nodo echo fields are omitted; they are copies of the inputs). -/
structure Resultado where
  exito : Bool
  error : Option String
  ruta_resultado : Option String
deriving Repr, DecidableEq

/-- Embedding of enviar_trabajo_con_archivos.  Mirrors the source order: proxy
lookup, input existence check, file read and remote call, then result
persistence; each except branch returns a structured failure dictionary.  The
Nat component counts invocations of the node's remote processing capability. -/
def enviarTrabajoConArchivos (env : EntornoDispatch) (rutaEntrada rutaSalida : String) :
    Resultado × Nat :=
  if env.proxyDisponible = false then
    ({ exito := false, error := some "Nodo no disponible", ruta_resultado := none }, 0)
  else if env.rutaEntradaExiste = false then
    ({ exito := false
       error := some ("Archivo de entrada no existe: " ++ rutaEntrada)
       ruta_resultado := none }, 0)
  else
    match env.llamada with
    | .timeout =>
        ({ exito := false
           error := some ("Timeout después de " ++ toString timeoutRPC ++ "s")
           ruta_resultado := none }, 1)
    | .commError =>
        ({ exito := false
           error := some "Error de comunicación con el nodo"
           ruta_resultado := none }, 1)
    | .exc msg =>
        ({ exito := false, error := some msg, ruta_resultado := none }, 1)
    | .ok resp =>
        if resp.exito && resp.imagen_resultado.isSome then
          match env.fallaEscritura with
          | some msg =>
              ({ exito := false
                 error := some ("Error guardando resultado: " ++ msg)
                 ruta_resultado := none }, 1)
          | none =>
              ({ exito := true, error := resp.error, ruta_resultado := some rutaSalida }, 1)
        else
          ({ exito := resp.exito, error := resp.error, ruta_resultado := none }, 1)

/-! ## Worker-level capture of job outcomes

Embedding of ProcesadorLoteIndividual._procesar_imagen_individual
(src/services/procesador_imagen_individual.py, lines 257-361): the dispatch
result updates the persisted row, and the blanket except branch turns any raised
exception into estado "error" plus a structured return value, so nothing
escapes the worker thread. -/

/-- Value returned by _procesar_imagen_individual to the fan-in loop. -/
structure RespuestaImagen where
  exito : Bool
  error : Option String
deriving Repr, DecidableEq

/-- Row update derived from a dispatch result (lines 311-326). -/
def actualizarRegistroConResultado (r : Resultado) : RegistroJob :=
  if r.exito then { estado := "completado", mensaje_error := none }
  else { estado := "error", mensaje_error := some (r.error.getD "Error desconocido") }

/-- Embedding of _procesar_imagen_individual: paso is the dispatch outcome when
the body runs to completion, or the message of an exception caught by the
blanket handler. -/
def procesarImagenIndividual (paso : Except String Resultado) :
    RegistroJob × RespuestaImagen :=
  match paso with
  | .error e =>
      ({ estado := "error", mensaje_error := some e }, { exito := false, error := some e })
  | .ok r =>
      (actualizarRegistroConResultado r, { exito := r.exito, error := r.error })

/-! ## Load balancer and cluster summary

Embedding of BalanceadorCargaNodos (src/services/ClienteNodoWorker.py, lines
308-413).  The NameServer enumeration is the nodos list (in the order the
NameServer returns it) and obtener_estado_nodo is the estadoDe oracle, which
yields none when the node does not answer. -/

/-- Status dictionary self-reported by a node via obtener_estado; fields are
optional because the Python code reads them with dict.get defaults. -/
structure EstadoNodo where
  estado : String
  trabajos_activos : Option Nat
  capacidad_maxima : Option Nat
deriving Repr, DecidableEq

/-- Key used by the min call: estado.get with default 999. -/
def carga (e : EstadoNodo) : Nat := e.trabajos_activos.getD 999

/-- Active candidate list built by obtener_nodo_optimo: nodes that answered the
status probe and report estado "activo", in enumeration order. -/
def candidatos (nodos : List String) (estadoDe : String → Option EstadoNodo) :
    List (String × EstadoNodo) :=
  nodos.filterMap (fun id =>
    match estadoDe id with
    | some e => if e.estado = "activo" then some (id, e) else none
    | none => none)

/-- First minimum of a list under a Nat key, seeded by an accumulator: the
semantics of Python min (and of a stable sort followed by taking the head),
which keeps the earliest element on ties. -/
def primerMinimoAux {α : Type} (clave : α → Nat) (mejor : α) : List α → α
  | [] => mejor
  | y :: ys => primerMinimoAux clave (if clave y < clave mejor then y else mejor) ys

/-- Embedding of BalanceadorCargaNodos.obtener_nodo_optimo: gate on an empty
registry, filter to active respondents, take the minimum by trabajos_activos
(Python min keeps the first element attaining the minimum). -/
def obtenerNodoOptimo (nodos : List String) (estadoDe : String → Option EstadoNodo) :
    Option String :=
  if nodos.isEmpty then none
  else
    match candidatos nodos estadoDe with
    | [] => none
    | x :: xs => some (primerMinimoAux (fun p => carga p.2) x xs).1

/-- Aggregate cluster summary returned by obtener_estado_cluster (the nodos
detail list is omitted; it is the list of oracle responses). -/
structure EstadoCluster where
  total_nodos : Nat
  nodos_activos : Nat
  nodos_inactivos : Nat
  trabajos_en_proceso : Nat
  capacidad_total : Nat
  capacidad_usada : Nat
  capacidad_disponible : Int
  porcentaje_uso : ℚ
deriving Repr, DecidableEq

/-- Embedding of BalanceadorCargaNodos.obtener_estado_cluster: iterate over the
enumerated nodes, accumulate over those that answered the status probe. -/
def obtenerEstadoCluster (nodos : List String) (estadoDe : String → Option EstadoNodo) :
    EstadoCluster :=
  let respuestas := nodos.filterMap estadoDe
  let activos := respuestas.countP (fun e => e.estado == "activo")
  let trabajos := (respuestas.map (fun e => e.trabajos_activos.getD 0)).sum
  let capTotal := (respuestas.map (fun e => e.capacidad_maxima.getD 0)).sum
  let capUsada := (respuestas.map (fun e => e.trabajos_activos.getD 0)).sum
  { total_nodos := nodos.length
    nodos_activos := activos
    nodos_inactivos := nodos.length - activos
    trabajos_en_proceso := trabajos
    capacidad_total := capTotal
    capacidad_usada := capUsada
    capacidad_disponible := (capTotal : Int) - (capUsada : Int)
    porcentaje_uso :=
      roundTo2 (if capTotal > 0 then (capUsada : ℚ) / (capTotal : ℚ) * 100 else 0) }

/-! ## Node manager used by the individual-batch coordinator

Embedding of GestorNodosImpl.ejecutar_trabajo_en_nodo from
src/services/GestorNodoImpl.py (lines 22-58): select a node through the
balancer, then call enviar_trabajo_con_archivos, which itself never raises.
This manager keeps no node state whatsoever. -/

/-- Embedding of GestorNodoImpl.ejecutar_trabajo_en_nodo; despacho gives the
structured dictionary enviar_trabajo_con_archivos returns for each node. -/
def ejecutarTrabajoEnNodoFastAPI (nodos : List String)
    (estadoDe : String → Option EstadoNodo) (despacho : String → Resultado) : Resultado :=
  match obtenerNodoOptimo nodos estadoDe with
  | none => { exito := false, error := some "No hay nodos disponibles", ruta_resultado := none }
  | some idNodo => despacho idNodo

/-! ## Legacy stateful node manager

Embedding of GestorNodosImpl in src/services/gestor_nodos.py.  The
nodos_registrados dict is an association list in insertion order; the Pyro
proxy, uri and timestamp fields are connection plumbing and are omitted — the
probe oracle covers both the direct obtener_estado call and the reconnect
branch, which end in the same state updates (activo plus estado on success,
activo false on failure). -/

/-- Registry entry for one node (value of nodos_registrados). -/
structure InfoNodo where
  activo : Bool
  estado : Option EstadoNodo
deriving Repr, DecidableEq

/-- Registry of known nodes in insertion order. -/
abbrev RegistroNodos : Type := List (String × InfoNodo)

/-- Embedding of _actualizar_estado_nodos: re-probe every known node; success
marks it activo with the fresh estado, failure marks it inactive and leaves the
stale estado untouched. -/
def actualizarEstadoNodos (probe : String → Option EstadoNodo) (s : RegistroNodos) :
    RegistroNodos :=
  s.map (fun p =>
    match probe p.1 with
    | some e => (p.1, { activo := true, estado := some e })
    | none => (p.1, { p.2 with activo := false }))

/-- Reading trabajos_activos from an entry: estado.get with default empty dict,
then .get with default 0. -/
def trabajosDe (info : InfoNodo) : Nat :=
  match info.estado with
  | some e => e.trabajos_activos.getD 0
  | none => 0

/-- Embedding of obtener_nodo_disponible: refresh all nodes, keep the active
ones reporting fewer than 5 trabajos_activos, stable-sort by that count and
take the first — which is the first entry attaining the minimum.  Returns the
selected entry and the refreshed registry. -/
def obtenerNodoDisponible (probe : String → Option EstadoNodo) (s : RegistroNodos) :
    Option (String × InfoNodo) × RegistroNodos :=
  let s1 := actualizarEstadoNodos probe s
  let activos := s1.filter (fun p => p.2.activo && trabajosDe p.2 < 5)
  match activos with
  | [] => (none, s1)
  | x :: xs => (some (primerMinimoAux (fun p => trabajosDe p.2) x xs), s1)

/-- Setting a node's activo flag to false in the registry (the dispatch-failure
write under the lock, lines 193-196 of gestor_nodos.py). -/
def marcarInactivo (idNodo : String) (s : RegistroNodos) : RegistroNodos :=
  s.map (fun p => if p.1 = idNodo then (p.1, { p.2 with activo := false }) else p)

/-- Outcome of the remote procesar call in the legacy manager. -/
inductive DespachoLegado where
  | ok (r : Resultado)
  | exc (msg : String)
deriving Repr, DecidableEq

/-- Embedding of gestor_nodos.GestorNodosImpl.ejecutar_trabajo_en_nodo: select
a node (refreshing the registry), invoke procesar on it; when the call raises,
mark that node inactive and return a structured failure. -/
def ejecutarTrabajoEnNodoLegado (probe : String → Option EstadoNodo)
    (despacho : String → DespachoLegado) (s : RegistroNodos) :
    Resultado × RegistroNodos :=
  match obtenerNodoDisponible probe s with
  | (none, s1) =>
      ({ exito := false, error := some "No hay nodos workers disponibles"
         ruta_resultado := none }, s1)
  | (some nodo, s1) =>
      match despacho nodo.1 with
      | .ok r => (r, s1)
      | .exc msg =>
          ({ exito := false
             error := some ("Error en nodo " ++ nodo.1 ++ ": " ++ msg)
             ruta_resultado := none }, marcarInactivo nodo.1 s1)

/-- Activo flag of a node id in the registry, as find? over the entries. -/
def activoEn (s : RegistroNodos) (idNodo : String) : Option Bool :=
  (s.find? (fun p => p.1 == idNodo)).map (fun p => p.2.activo)

/-! ## Concrete fixtures used by the theorems -/

/-- Tied-minimum status oracle used to exercise the selection tie-break. -/
def orcEmpate : String → Option EstadoNodo := fun _ =>
  some { estado := "activo", trabajos_activos := some 0, capacidad_maxima := some 5 }

/-- Registry with a single discovered node before any refresh. -/
def registroUnNodo : RegistroNodos := [("n1", { activo := false, estado := none })]

/-- Probe oracle reporting an active node loaded with exactly 5 jobs. -/
def orcCargado : String → Option EstadoNodo := fun _ =>
  some { estado := "activo", trabajos_activos := some 5, capacidad_maxima := some 10 }

/-- Dispatch stub that always reports a structured failure. -/
def despachoFalla : String → Resultado := fun _ =>
  { exito := false, error := some "Error en despacho", ruta_resultado := none }

/-- Dispatch stub for the legacy manager that always raises. -/
def despachoExc : String → DespachoLegado := fun _ => .exc "fallo simulado"

/-! ## Supporting lemmas -/

/-- Unfolding obtenerEstadoLote on a nonempty state list. -/
lemma obtenerEstadoLote_eq_some (idLote : String) (estados : List String)
    (hne : ¬ estados.isEmpty) (r : EstadoLote)
    (hr : obtenerEstadoLote idLote estados = some r) :
    r.estado =
      (if contarEstado estados "completado" = estados.length then "completado"
       else if contarEstado estados "error" = estados.length then "fallido"
       else if contarEstado estados "completado" > 0 ∨ contarEstado estados "error" > 0 then
         "procesando"
       else "pendiente") ∧
    r.total_imagenes = estados.length ∧
    r.completados = contarEstado estados "completado" ∧
    r.errores = contarEstado estados "error" ∧
    r.progreso_porcentaje =
      roundTo2 (if estados.length > 0 then
        (contarEstado estados "completado" : ℚ) / (estados.length : ℚ) * 100 else 0) := by
  unfold obtenerEstadoLote at hr
  rw [if_neg hne] at hr
  cases hr
  refine ⟨rfl, rfl, rfl, rfl, rfl⟩

/-- A state count equals the list length exactly when every state is that one. -/
lemma contarEstado_eq_length {estados : List String} {e : String} :
    contarEstado estados e = estados.length ↔ ∀ x ∈ estados, x = e := by
  unfold contarEstado
  rw [List.countP_eq_length]
  simp

/-- A state count is positive exactly when some state is that one. -/
lemma contarEstado_pos {estados : List String} {e : String} :
    0 < contarEstado estados e ↔ ∃ x ∈ estados, x = e := by
  unfold contarEstado
  rw [List.countP_pos_iff]
  simp

/-- Disjoint state counts never exceed the number of jobs. -/
lemma contar_completado_mas_error_le (estados : List String) :
    contarEstado estados "completado" + contarEstado estados "error" ≤ estados.length := by
  have h1 := List.length_eq_countP_add_countP (fun x => x == "completado") estados
  have h2 : estados.countP (fun x => x == "error") ≤
      estados.countP (fun a => decide ¬((a == "completado") = true)) := by
    apply List.countP_mono_left
    intro x _ hx
    have hx2 : x = "error" := by simpa using hx
    subst hx2
    decide
  unfold contarEstado
  omega

/-- Finalization is computed from the states present when the deadline fires:
replacing the eventual outcome of every job that missed the deadline changes
nothing in the final batch state or counters. -/
lemma procesarLoteAsync_ignora_tardios (jobs : List TrabajoSimulado) (b : Bool) :
    procesarLoteAsync
      (jobs.map (fun j => if j.terminaEnPlazo then j else { j with exito := b })) =
      procesarLoteAsync jobs := by
  unfold procesarLoteAsync
  have h1 : (jobs.map (fun j => if j.terminaEnPlazo then j else { j with exito := b })).countP
      (fun t => t.terminaEnPlazo && t.exito) =
      jobs.countP (fun t => t.terminaEnPlazo && t.exito) := by
    rw [List.countP_map]
    apply List.countP_congr
    intro j _
    cases hter : j.terminaEnPlazo <;> simp [Function.comp, hter]
  have h2 : (jobs.map (fun j => if j.terminaEnPlazo then j else { j with exito := b })).countP
      (fun t => t.terminaEnPlazo && !t.exito) =
      jobs.countP (fun t => t.terminaEnPlazo && !t.exito) := by
    rw [List.countP_map]
    apply List.countP_congr
    intro j _
    cases hter : j.terminaEnPlazo <;> simp [Function.comp, hter]
  have h3 : (jobs.map (fun j => if j.terminaEnPlazo then j else { j with exito := b })).countP
      (fun t => !t.terminaEnPlazo) =
      jobs.countP (fun t => !t.terminaEnPlazo) := by
    rw [List.countP_map]
    apply List.countP_congr
    intro j _
    cases hter : j.terminaEnPlazo <;> simp [Function.comp, hter]
  rw [h1, h2, h3, List.length_map]

/-- Unfolding of the total_nodos field of the cluster summary. -/
lemma cluster_total_nodos_def (nodos : List String) (estadoDe : String → Option EstadoNodo) :
    (obtenerEstadoCluster nodos estadoDe).total_nodos = nodos.length := rfl

/-- Unfolding of the nodos_activos field of the cluster summary. -/
lemma cluster_nodos_activos_def (nodos : List String) (estadoDe : String → Option EstadoNodo) :
    (obtenerEstadoCluster nodos estadoDe).nodos_activos =
      (nodos.filterMap estadoDe).countP (fun e => e.estado == "activo") := rfl

/-- Unfolding of the nodos_inactivos field of the cluster summary. -/
lemma cluster_nodos_inactivos_def (nodos : List String)
    (estadoDe : String → Option EstadoNodo) :
    (obtenerEstadoCluster nodos estadoDe).nodos_inactivos =
      nodos.length - (nodos.filterMap estadoDe).countP (fun e => e.estado == "activo") := rfl

/-- Unfolding of the capacidad_total field of the cluster summary. -/
lemma cluster_capacidad_total_def (nodos : List String)
    (estadoDe : String → Option EstadoNodo) :
    (obtenerEstadoCluster nodos estadoDe).capacidad_total =
      ((nodos.filterMap estadoDe).map (fun e => e.capacidad_maxima.getD 0)).sum := rfl

/-- Unfolding of the capacidad_usada field of the cluster summary. -/
lemma cluster_capacidad_usada_def (nodos : List String)
    (estadoDe : String → Option EstadoNodo) :
    (obtenerEstadoCluster nodos estadoDe).capacidad_usada =
      ((nodos.filterMap estadoDe).map (fun e => e.trabajos_activos.getD 0)).sum := rfl

/-- Unfolding of the capacidad_disponible field of the cluster summary. -/
lemma cluster_capacidad_disponible_def (nodos : List String)
    (estadoDe : String → Option EstadoNodo) :
    (obtenerEstadoCluster nodos estadoDe).capacidad_disponible =
      (((((nodos.filterMap estadoDe).map (fun e => e.capacidad_maxima.getD 0)).sum : ℕ)) : Int) -
        (((((nodos.filterMap estadoDe).map (fun e => e.trabajos_activos.getD 0)).sum : ℕ)) : Int) :=
  rfl

/-- Unfolding of the porcentaje_uso field of the cluster summary. -/
lemma cluster_porcentaje_uso_def (nodos : List String)
    (estadoDe : String → Option EstadoNodo) :
    (obtenerEstadoCluster nodos estadoDe).porcentaje_uso =
      roundTo2
        (if ((nodos.filterMap estadoDe).map (fun e => e.capacidad_maxima.getD 0)).sum > 0
         then
          (((((nodos.filterMap estadoDe).map (fun e => e.trabajos_activos.getD 0)).sum : ℕ)) : ℚ) /
            (((((nodos.filterMap estadoDe).map (fun e => e.capacidad_maxima.getD 0)).sum : ℕ)) : ℚ)
            * 100
         else 0) := rfl

/-- Membership in the active-candidate list of the load balancer. -/
lemma mem_candidatos {nodos : List String} {estadoDe : String → Option EstadoNodo}
    {p : String × EstadoNodo} :
    p ∈ candidatos nodos estadoDe ↔
      p.1 ∈ nodos ∧ estadoDe p.1 = some p.2 ∧ p.2.estado = "activo" := by
  unfold candidatos
  rw [List.mem_filterMap]
  constructor
  · rintro ⟨a, ha, hfa⟩
    cases he : estadoDe a with
    | none => rw [he] at hfa; exact Option.noConfusion hfa
    | some e =>
      rw [he] at hfa
      dsimp only at hfa
      by_cases hact : e.estado = "activo"
      · rw [if_pos hact] at hfa
        obtain rfl := Option.some_injective _ hfa
        exact ⟨ha, he, hact⟩
      · rw [if_neg hact] at hfa
        exact Option.noConfusion hfa
  · rintro ⟨h1, h2, h3⟩
    refine ⟨p.1, h1, ?_⟩
    rw [h2]
    dsimp only
    rw [if_pos h3]

/-- The accumulator-seeded first minimum never exceeds the seed's key. -/
lemma primerMinimoAux_le_mejor {α : Type} (clave : α → Nat) (xs : List α) :
    ∀ mejor, clave (primerMinimoAux clave mejor xs) ≤ clave mejor := by
  induction xs with
  | nil => intro mejor; exact Nat.le_refl _
  | cons y ys ih =>
    intro mejor
    unfold primerMinimoAux
    by_cases h : clave y < clave mejor
    · rw [if_pos h]
      exact Nat.le_trans (ih y) (Nat.le_of_lt h)
    · rw [if_neg h]
      exact ih mejor

/-- The first minimum is below every element of the list. -/
lemma primerMinimoAux_le {α : Type} (clave : α → Nat) (xs : List α) :
    ∀ mejor, ∀ y ∈ xs, clave (primerMinimoAux clave mejor xs) ≤ clave y := by
  induction xs with
  | nil => intro mejor y hy; exact absurd hy (List.not_mem_nil y)
  | cons z zs ih =>
    intro mejor y hy
    unfold primerMinimoAux
    rcases List.mem_cons.mp hy with rfl | hy2
    · by_cases h : clave y < clave mejor
      · rw [if_pos h]
        exact primerMinimoAux_le_mejor clave zs y
      · rw [if_neg h]
        exact Nat.le_trans (primerMinimoAux_le_mejor clave zs mejor) (Nat.le_of_not_lt h)
    · by_cases h : clave z < clave mejor
      · rw [if_pos h]; exact ih z y hy2
      · rw [if_neg h]; exact ih mejor y hy2

/-- The first minimum is the seed or an element of the list. -/
lemma primerMinimoAux_mem {α : Type} (clave : α → Nat) (xs : List α) :
    ∀ mejor, primerMinimoAux clave mejor xs = mejor ∨ primerMinimoAux clave mejor xs ∈ xs := by
  induction xs with
  | nil => intro mejor; exact Or.inl rfl
  | cons z zs ih =>
    intro mejor
    unfold primerMinimoAux
    by_cases h : clave z < clave mejor
    · rw [if_pos h]
      rcases ih z with h2 | h2
      · rw [h2]; exact Or.inr (List.mem_cons_self z zs)
      · exact Or.inr (List.mem_cons_of_mem z h2)
    · rw [if_neg h]
      rcases ih mejor with h2 | h2
      · exact Or.inl h2
      · exact Or.inr (List.mem_cons_of_mem z h2)

/-- When the seed already attains the minimum (ties included), the fold keeps
the seed: Python min and a stable sort keep the earliest of tied elements. -/
lemma primerMinimoAux_primero {α : Type} (clave : α → Nat) (xs : List α) :
    ∀ mejor, (∀ y ∈ xs, clave mejor ≤ clave y) → primerMinimoAux clave mejor xs = mejor := by
  induction xs with
  | nil => intro mejor _; rfl
  | cons z zs ih =>
    intro mejor h
    unfold primerMinimoAux
    rw [if_neg (Nat.not_lt.mpr (h z (List.mem_cons_self z zs)))]
    exact ih mejor (fun y hy => h y (List.mem_cons_of_mem z hy))

/-- The refreshed registry is the second component of every selection. -/
lemma obtenerNodoDisponible_snd (probe : String → Option EstadoNodo) (s : RegistroNodos) :
    (obtenerNodoDisponible probe s).2 = actualizarEstadoNodos probe s := by
  unfold obtenerNodoDisponible
  dsimp only
  cases (actualizarEstadoNodos probe s).filter
      (fun p => p.2.activo && decide (trabajosDe p.2 < 5)) with
  | nil => rfl
  | cons x xs => rfl

/-- Every selected entry comes from the refreshed registry, is active, and
reports fewer than 5 trabajos_activos. -/
lemma seleccion_en_activos (probe : String → Option EstadoNodo) (s : RegistroNodos)
    (sel : String × InfoNodo)
    (hsel : (obtenerNodoDisponible probe s).1 = some sel) :
    sel ∈ actualizarEstadoNodos probe s ∧ sel.2.activo = true ∧ trabajosDe sel.2 < 5 := by
  unfold obtenerNodoDisponible at hsel
  dsimp only at hsel
  cases hact : (actualizarEstadoNodos probe s).filter
      (fun p => p.2.activo && decide (trabajosDe p.2 < 5)) with
  | nil =>
    rw [hact] at hsel
    exact Option.noConfusion hsel
  | cons x xs =>
    rw [hact] at hsel
    dsimp only at hsel
    obtain rfl : primerMinimoAux (fun p => trabajosDe p.2) x xs = sel :=
      Option.some_injective _ hsel
    have hmem : primerMinimoAux (fun p => trabajosDe p.2) x xs ∈ x :: xs := by
      rcases primerMinimoAux_mem (fun p => trabajosDe p.2) xs x with h | h
      · rw [h]; exact List.mem_cons_self x xs
      · exact List.mem_cons_of_mem x h
    rw [← hact] at hmem
    obtain ⟨hs1, hpred⟩ := List.mem_filter.mp hmem
    simp only [Bool.and_eq_true, decide_eq_true_eq] at hpred
    exact ⟨hs1, hpred.1, hpred.2⟩

/-- A node whose probe fails is never selected: the refresh marks it inactive
before the filter keeps only active entries. -/
lemma seleccion_excluye_probe_fallido (probe : String → Option EstadoNodo)
    (s : RegistroNodos) (k : String) (hk : probe k = none) (sel : String × InfoNodo)
    (hsel : (obtenerNodoDisponible probe s).1 = some sel) : sel.1 ≠ k := by
  intro heq
  obtain ⟨hmem, hact, -⟩ := seleccion_en_activos probe s sel hsel
  unfold actualizarEstadoNodos at hmem
  obtain ⟨q, -, hq⟩ := List.mem_map.mp hmem
  cases hpq : probe q.1 with
  | some e =>
    rw [hpq] at hq
    have hqk : q.1 = k := by rw [← heq, ← hq]
    rw [hqk, hk] at hpq
    exact Option.noConfusion hpq
  | none =>
    rw [hpq] at hq
    rw [← hq] at hact
    exact Bool.noConfusion hact

/-- Setting a present key inactive is visible through activoEn. -/
lemma activoEn_marcarInactivo (s : RegistroNodos) (k : String)
    (h : ∃ p ∈ s, p.1 = k) : activoEn (marcarInactivo k s) k = some false := by
  induction s with
  | nil =>
    obtain ⟨p, hp, -⟩ := h
    exact absurd hp (List.not_mem_nil p)
  | cons q qs ih =>
    by_cases hq : q.1 = k
    · unfold marcarInactivo activoEn
      rw [List.map_cons, if_pos hq, List.find?_cons_of_pos _ (by simpa using hq)]
      rfl
    · unfold marcarInactivo activoEn
      rw [List.map_cons, if_neg hq, List.find?_cons_of_neg _ (by simpa using hq)]
      obtain ⟨p, hp, hpk⟩ := h
      rcases List.mem_cons.mp hp with rfl | hp2
      · exact absurd hpk hq
      · exact ih ⟨p, hp2, hpk⟩

/-! ## Theorems about the claims -/

/-- C1, counterexample: a batch whose two jobs both reached a terminal state
with mixed outcomes (one completado, one error) is reported by the status query
as "procesando", not as the claimed "parcial"; the spec-side aggregate rule
yields "parcial" on the same states. -/
theorem estado_lote_mixto_reporta_procesando :
    (obtenerEstadoLote "L" ["completado", "error"]).map (fun r => r.estado) =
      some "procesando" ∧
    estadoLoteSegunSpec ["completado", "error"] = "parcial" ∧
    ("procesando" : String) ≠ "parcial" := by
  refine ⟨rfl, rfl, by decide⟩

/-- C1, amended: the status query derives the batch status from the job states
as: completado when every job completed; fallido when every job failed; else
"procesando" as soon as at least one job has reached a terminal state; else
"pendiente".  The query never reports "parcial", and a batch with jobs in
flight but none finished is reported "pendiente" rather than processing. -/
theorem estado_lote_consolidacion (idLote : String) (estados : List String)
    (r : EstadoLote) (hr : obtenerEstadoLote idLote estados = some r) :
    ((∀ e ∈ estados, e = "completado") → r.estado = "completado") ∧
    ((estados ≠ []) → (∀ e ∈ estados, e = "error") → r.estado = "fallido") ∧
    (¬ (∀ e ∈ estados, e = "completado") → ¬ (∀ e ∈ estados, e = "error") →
      (∃ e ∈ estados, e = "completado" ∨ e = "error") → r.estado = "procesando") ∧
    ((∀ e ∈ estados, e ≠ "completado" ∧ e ≠ "error") → r.estado = "pendiente") ∧
    r.estado ≠ "parcial" := by
  have hne : ¬ estados.isEmpty := by
    intro h
    rw [obtenerEstadoLote, if_pos h] at hr
    exact Option.noConfusion hr
  obtain ⟨hest, -, -, -, -⟩ := obtenerEstadoLote_eq_some idLote estados hne r hr
  have hlen : 0 < estados.length := by
    cases estados with
    | nil => simp [List.isEmpty] at hne
    | cons a l => simp
  constructor
  · intro hall
    rw [hest, if_pos (contarEstado_eq_length.mpr hall)]
  constructor
  · intro _ hall
    have herr : contarEstado estados "error" = estados.length :=
      contarEstado_eq_length.mpr hall
    have hcomp : contarEstado estados "completado" ≠ estados.length := by
      intro hc
      obtain ⟨x, hx⟩ := List.exists_mem_of_length_pos hlen
      have h1 := contarEstado_eq_length.mp hc x hx
      have h2 := contarEstado_eq_length.mp herr x hx
      rw [h1] at h2
      exact absurd h2 (by decide)
    rw [hest, if_neg hcomp, if_pos herr]
  constructor
  · intro hnc hne2 hex
    have hcomp : contarEstado estados "completado" ≠ estados.length := fun hc =>
      hnc (contarEstado_eq_length.mp hc)
    have herr : contarEstado estados "error" ≠ estados.length := fun hc =>
      hne2 (contarEstado_eq_length.mp hc)
    have hpos : contarEstado estados "completado" > 0 ∨ contarEstado estados "error" > 0 := by
      obtain ⟨x, hx, hx2⟩ := hex
      cases hx2 with
      | inl h => exact Or.inl (contarEstado_pos.mpr ⟨x, hx, h⟩)
      | inr h => exact Or.inr (contarEstado_pos.mpr ⟨x, hx, h⟩)
    rw [hest, if_neg hcomp, if_neg herr, if_pos hpos]
  constructor
  · intro hall
    have hc0 : contarEstado estados "completado" = 0 := by
      by_contra h
      obtain ⟨x, hx, hx2⟩ := contarEstado_pos.mp (Nat.pos_of_ne_zero h)
      exact (hall x hx).1 hx2
    have he0 : contarEstado estados "error" = 0 := by
      by_contra h
      obtain ⟨x, hx, hx2⟩ := contarEstado_pos.mp (Nat.pos_of_ne_zero h)
      exact (hall x hx).2 hx2
    rw [hest, if_neg (by omega), if_neg (by omega), if_neg (by omega)]
  · rw [hest]
    split
    · decide
    split
    · decide
    split
    · decide
    · decide

/-- C1, witness for the amended theorem at a concrete mixed batch. -/
theorem estado_lote_consolidacion_witness :
    (obtenerEstadoLote "L" ["completado", "error"]).map EstadoLote.estado =
      some "procesando" := by
  obtain ⟨r, hr⟩ : ∃ r, obtenerEstadoLote "L" ["completado", "error"] = some r := ⟨_, rfl⟩
  have h := (estado_lote_consolidacion "L" ["completado", "error"] r hr).2.2.1
    (by decide) (by decide) ⟨"completado", by decide⟩
  rw [hr]
  exact congrArg some h

/-- C8, counterexample: a batch with a single job still pendiente is reported
with estado "pendiente" — different from "procesando" — while
completados + errores = 0 is strictly below total_imagenes = 1, so the claimed
equality outside processing fails. -/
theorem estado_lote_pendiente_sin_igualdad :
    (obtenerEstadoLote "L" ["pendiente"]).map
      (fun r => (r.estado, r.completados + r.errores, r.total_imagenes)) =
      some ("pendiente", 0, 1) ∧
    ("pendiente" : String) ≠ "procesando" ∧ (0 : Nat) ≠ 1 :=
  ⟨rfl, by decide, by decide⟩

/-- C8, amended: for every batch status result, completados + errores is at
most total_imagenes, with equality whenever the reported status is terminal
(completado or fallido) — a batch reported "pendiente" can have the sum below
the total — and the progress percentage is completados over total (as a
percentage) rounded to two decimals. -/
theorem estado_lote_invariante_cuentas (idLote : String) (estados : List String)
    (r : EstadoLote) (hr : obtenerEstadoLote idLote estados = some r) :
    r.completados + r.errores ≤ r.total_imagenes ∧
    ((r.estado = "completado" ∨ r.estado = "fallido") →
      r.completados + r.errores = r.total_imagenes) ∧
    r.progreso_porcentaje =
      roundTo2 ((r.completados : ℚ) / (r.total_imagenes : ℚ) * 100) := by
  have hne : ¬ estados.isEmpty := by
    intro h
    rw [obtenerEstadoLote, if_pos h] at hr
    exact Option.noConfusion hr
  obtain ⟨hest, htot, hcomp, herr, hprog⟩ := obtenerEstadoLote_eq_some idLote estados hne r hr
  have hlen : 0 < estados.length := by
    cases estados with
    | nil => simp [List.isEmpty] at hne
    | cons a l => simp
  have hsum := contar_completado_mas_error_le estados
  refine ⟨by omega, ?_, ?_⟩
  · intro hterm
    rw [hcomp, herr, htot]
    rw [hest] at hterm
    by_cases h1 : contarEstado estados "completado" = estados.length
    · omega
    · rw [if_neg h1] at hterm
      by_cases h2 : contarEstado estados "error" = estados.length
      · omega
      · rw [if_neg h2] at hterm
        rcases hterm with h | h <;> [skip; skip] <;>
          · split at h <;> exact absurd h (by decide)
  · rw [hprog, hcomp, htot, if_pos hlen]

/-- C8, witness for the amended theorem: a fully completed one-job batch has
completados + errores equal to total_imagenes. -/
theorem estado_lote_invariante_cuentas_witness :
    (obtenerEstadoLote "L" ["completado"]).map
      (fun r => decide (r.completados + r.errores = r.total_imagenes)) = some true := by
  obtain ⟨r, hr⟩ : ∃ r, obtenerEstadoLote "L" ["completado"] = some r := ⟨_, rfl⟩
  have hfacts := obtenerEstadoLote_eq_some "L" ["completado"] (by decide) r hr
  have hest : r.estado = "completado" := by
    rw [hfacts.1]
    decide
  have h := (estado_lote_invariante_cuentas "L" ["completado"] r hr).2.1 (Or.inl hest)
  rw [hr]
  simp [h]

/-- C9: when the overall batch deadline (3600 seconds) elapses, every job whose
future has not finished is forced to estado "error" with a message containing
"timeout" (case-insensitively; the literal message is "Timeout en
procesamiento"), and the batch is finalized from the job states present at that
moment: the eventual outcome of each late job does not change the final batch
state or counters. -/
theorem lote_deadline_fuerza_timeout (jobs : List TrabajoSimulado)
    (t : TrabajoSimulado) (_ht : t ∈ jobs) (hlate : t.terminaEnPlazo = false) (b : Bool) :
    (registroTrasLote t).estado = "error" ∧
    (registroTrasLote t).mensaje_error = some "Timeout en procesamiento" ∧
    contieneSubcadena (enMinusculas ((registroTrasLote t).mensaje_error.getD ""))
      "timeout" = true ∧
    procesarLoteAsync
      (jobs.map (fun j => if j.terminaEnPlazo then j else { j with exito := b })) =
      procesarLoteAsync jobs ∧
    timeoutLoteSegundos = 3600 := by
  refine ⟨?_, ?_, ?_, procesarLoteAsync_ignora_tardios jobs b, rfl⟩
  · rw [registroTrasLote, if_neg (by simp [hlate])]
  · rw [registroTrasLote, if_neg (by simp [hlate])]
  · rw [registroTrasLote, if_neg (by simp [hlate])]
    decide

/-- C9, witness: a two-job batch where the second job misses the deadline. -/
theorem lote_deadline_fuerza_timeout_witness :
    (registroTrasLote { terminaEnPlazo := false, exito := true, error := none }).estado =
      "error" ∧
    procesarLoteAsync
      [{ terminaEnPlazo := true, exito := true, error := none },
       { terminaEnPlazo := false, exito := true, error := none }] =
      ("parcial", 1, 1) := by
  have h := lote_deadline_fuerza_timeout
    [{ terminaEnPlazo := true, exito := true, error := none },
     { terminaEnPlazo := false, exito := true, error := none }]
    { terminaEnPlazo := false, exito := true, error := none }
    (by decide) rfl false
  exact ⟨h.1, by decide⟩

/-- C4, counterexample: the legacy batch-submission operation
crear_solicitud_procesamiento joins every per-image thread before returning and
its returned value does depend on the jobs' outcomes — the same submission with
one succeeding image versus one failing image returns different values. -/
theorem solicitud_legada_depende_de_resultados :
    crearSolicitudProcesamiento 1 [true] ≠ crearSolicitudProcesamiento 1 [false] ∧
    (crearSolicitudProcesamiento 1 [true]).estado = "completado" ∧
    (crearSolicitudProcesamiento 1 [false]).estado = "fallido" := by
  decide

/-- C4, amended: the individual-batch submission procesar_lote returns the list
of created job ids and the image count — the route wraps them with the batch
identifier — without blocking on dispatch: its returned value is identical
under any two outcome oracles, it equals the ids assigned at record creation,
and at the moment of return every created job row is still pendiente. -/
theorem procesar_lote_devuelve_sin_esperar (oracle1 oracle2 : Nat → Bool)
    (idLote : String) (idUsuario : Nat) (imagenes : List ImagenEntrada)
    (s : EstadoCoordinador) :
    (procesarLoteConResultados oracle1 idLote idUsuario imagenes s).1 =
      (procesarLoteConResultados oracle2 idLote idUsuario imagenes s).1 ∧
    respuestaRutaLote idLote (procesarLoteConResultados oracle1 idLote idUsuario imagenes s).1 =
      (idLote, (List.range imagenes.length).map (fun i => s.nextId + i), imagenes.length) ∧
    (((procesarLote idLote idUsuario imagenes s).2.registros.drop s.registros.length).all
      (fun fila => fila.2.estado == "pendiente")) = true := by
  refine ⟨rfl, rfl, ?_⟩
  show ((s.registros ++ _).drop s.registros.length).all _ = true
  rw [List.drop_left]
  rw [List.all_eq_true]
  intro fila hfila
  obtain ⟨p, -, hp⟩ := List.mem_map.mp hfila
  rw [← hp]
  rfl

/-- C4, witness for the amended theorem at a concrete one-image batch: the
submission's returned value is the same whether the job later succeeds or
fails. -/
theorem procesar_lote_devuelve_sin_esperar_witness :
    (procesarLoteConResultados (fun _ => true) "L" 7
      [{ nombre_original := "a.jpg", formato_original := "jpg", ruta_temporal := "tmp/a.jpg"
         transformaciones := ["girar"], tamanio_bytes := 10 }]
      { nextId := 1, registros := [], lotesActivos := [] }).1 =
    (procesarLoteConResultados (fun _ => false) "L" 7
      [{ nombre_original := "a.jpg", formato_original := "jpg", ruta_temporal := "tmp/a.jpg"
         transformaciones := ["girar"], tamanio_bytes := 10 }]
      { nextId := 1, registros := [], lotesActivos := [] }).1 :=
  (procesar_lote_devuelve_sin_esperar (fun _ => true) (fun _ => false) "L" 7
    [{ nombre_original := "a.jpg", formato_original := "jpg", ruta_temporal := "tmp/a.jpg"
       transformaciones := ["girar"], tamanio_bytes := 10 }]
    { nextId := 1, registros := [], lotesActivos := [] }).1

/-- C6: dispatch of a job whose input path does not exist returns the local-IO
failure outcome (the structured "Archivo de entrada no existe" dictionary)
without invoking the node's remote processing capability: zero
procesar_con_archivo invocations. -/
theorem dispatch_sin_archivo_no_invoca_nodo (env : EntornoDispatch)
    (rutaEntrada rutaSalida : String)
    (hproxy : env.proxyDisponible = true) (hfs : env.rutaEntradaExiste = false) :
    (enviarTrabajoConArchivos env rutaEntrada rutaSalida).1 =
      { exito := false
        error := some ("Archivo de entrada no existe: " ++ rutaEntrada)
        ruta_resultado := none } ∧
    (enviarTrabajoConArchivos env rutaEntrada rutaSalida).2 = 0 := by
  unfold enviarTrabajoConArchivos
  rw [hproxy, hfs]
  exact ⟨rfl, rfl⟩

/-- C6, witness: a concrete dispatch with a live node and a missing input file
performs zero remote invocations. -/
theorem dispatch_sin_archivo_no_invoca_nodo_witness :
    (enviarTrabajoConArchivos
      { proxyDisponible := true, rutaEntradaExiste := false
        llamada := .ok { exito := true, imagen_resultado := some "x", error := none }
        fallaEscritura := none } "uploads/falta.png" "results/r.png").2 = 0 :=
  (dispatch_sin_archivo_no_invoca_nodo _ "uploads/falta.png" "results/r.png" rfl rfl).2

/-- C7: dispatch always returns a structured outcome classifying the failure
mode — timeout, communication error, node-reported failure (whose own error is
passed through), or local-IO failure writing the result — and the worker-level
wrapper records every failure in the job row's mensaje_error while converting
any raised exception into a structured return, so no job exception escapes the
pool. -/
theorem dispatch_clasifica_errores (env : EntornoDispatch)
    (rutaEntrada rutaSalida : String)
    (hproxy : env.proxyDisponible = true) (hfs : env.rutaEntradaExiste = true) :
    (env.llamada = .timeout →
      (enviarTrabajoConArchivos env rutaEntrada rutaSalida).1 =
        { exito := false, error := some "Timeout después de 300s", ruta_resultado := none }) ∧
    (env.llamada = .commError →
      (enviarTrabajoConArchivos env rutaEntrada rutaSalida).1 =
        { exito := false, error := some "Error de comunicación con el nodo"
          ruta_resultado := none }) ∧
    (∀ resp, env.llamada = .ok resp → resp.exito = false →
      (enviarTrabajoConArchivos env rutaEntrada rutaSalida).1 =
        { exito := false, error := resp.error, ruta_resultado := none }) ∧
    (∀ resp msg, env.llamada = .ok resp → resp.exito = true →
      resp.imagen_resultado.isSome = true → env.fallaEscritura = some msg →
      (enviarTrabajoConArchivos env rutaEntrada rutaSalida).1 =
        { exito := false, error := some ("Error guardando resultado: " ++ msg)
          ruta_resultado := none }) ∧
    (∀ msg, procesarImagenIndividual (.error msg) =
      ({ estado := "error", mensaje_error := some msg },
       { exito := false, error := some msg })) ∧
    (∀ r : Resultado, r.exito = false →
      (procesarImagenIndividual (.ok r)).1 =
        { estado := "error", mensaje_error := some (r.error.getD "Error desconocido") }) := by
  refine ⟨?_, ?_, ?_, ?_, fun msg => rfl, ?_⟩
  · intro hll
    unfold enviarTrabajoConArchivos
    rw [hproxy, hfs, hll]
    rfl
  · intro hll
    unfold enviarTrabajoConArchivos
    rw [hproxy, hfs, hll]
    rfl
  · intro resp hll hexito
    unfold enviarTrabajoConArchivos
    rw [hproxy, hfs, hll]
    simp only [hexito, Bool.false_and, if_neg (Bool.false_ne_true)]
    cases resp with
    | mk e i err => simp_all
  · intro resp msg hll hexito him hesc
    unfold enviarTrabajoConArchivos
    rw [hproxy, hfs, hll]
    simp only [hexito, him, Bool.and_self, if_pos rfl, hesc]
    rfl
  · intro r hexito
    simp [procesarImagenIndividual, actualizarRegistroConResultado, hexito]

/-- C7, witness: a concrete communication failure is classified into the
structured communication-error outcome. -/
theorem dispatch_clasifica_errores_witness :
    (enviarTrabajoConArchivos
      { proxyDisponible := true, rutaEntradaExiste := true, llamada := .commError
        fallaEscritura := none } "uploads/a.png" "results/a.png").1 =
      { exito := false, error := some "Error de comunicación con el nodo"
        ruta_resultado := none } :=
  (dispatch_clasifica_errores _ "uploads/a.png" "results/a.png" rfl rfl).2.1 rfl

/-- C10: the cluster summary counters are internally consistent: active plus
inactive node counts give the total, available capacity is total minus used
capacity, and the usage percentage is the rounded ratio when total capacity is
positive and 0 otherwise, so the computation never divides by zero. -/
theorem cluster_resumen_consistente (nodos : List String)
    (estadoDe : String → Option EstadoNodo) :
    (obtenerEstadoCluster nodos estadoDe).nodos_activos +
        (obtenerEstadoCluster nodos estadoDe).nodos_inactivos =
      (obtenerEstadoCluster nodos estadoDe).total_nodos ∧
    (obtenerEstadoCluster nodos estadoDe).capacidad_disponible =
      ((obtenerEstadoCluster nodos estadoDe).capacidad_total : Int) -
        ((obtenerEstadoCluster nodos estadoDe).capacidad_usada : Int) ∧
    (obtenerEstadoCluster nodos estadoDe).porcentaje_uso =
      (if (obtenerEstadoCluster nodos estadoDe).capacidad_total > 0 then
        roundTo2 (((obtenerEstadoCluster nodos estadoDe).capacidad_usada : ℚ) /
          ((obtenerEstadoCluster nodos estadoDe).capacidad_total : ℚ) * 100)
       else 0) := by
  refine ⟨?_, ?_, ?_⟩
  · rw [cluster_nodos_activos_def, cluster_nodos_inactivos_def, cluster_total_nodos_def]
    have h1 := List.countP_le_length (fun e : EstadoNodo => e.estado == "activo")
      (l := nodos.filterMap estadoDe)
    have h2 := List.length_filterMap_le estadoDe nodos
    omega
  · rw [cluster_capacidad_disponible_def, cluster_capacidad_total_def,
      cluster_capacidad_usada_def]
  · rw [cluster_porcentaje_uso_def, cluster_capacidad_total_def, cluster_capacidad_usada_def]
    by_cases h : ((nodos.filterMap estadoDe).map (fun e => e.capacidad_maxima.getD 0)).sum > 0
    · rw [if_pos h, if_pos h]
    · rw [if_neg h, if_neg h]
      unfold roundTo2
      norm_num

/-- C10, witness at a concrete one-node cluster: active plus inactive counts
give the total. -/
theorem cluster_resumen_consistente_witness :
    (obtenerEstadoCluster ["n1"] orcCargado).nodos_activos +
      (obtenerEstadoCluster ["n1"] orcCargado).nodos_inactivos =
      (obtenerEstadoCluster ["n1"] orcCargado).total_nodos :=
  (cluster_resumen_consistente ["n1"] orcCargado).1

/-- C3, counterexample: with the NameServer enumeration ["b", "a"] and both
nodes active with a tied trabajos_activos of 0, obtener_nodo_optimo returns
"b" — the first node in enumeration order — even though the lexicographically
smallest tied node id is "a". -/
theorem seleccion_no_desempata_lexicografico :
    obtenerNodoOptimo ["b", "a"] orcEmpate = some "b" ∧
    orcEmpate "a" =
      some { estado := "activo", trabajos_activos := some 0, capacidad_maxima := some 5 } ∧
    orcEmpate "b" = orcEmpate "a" ∧
    ("a" : String) < "b" ∧
    some "b" ≠ some ("a" : String) := by
  refine ⟨rfl, rfl, rfl, ?_, by decide⟩
  rw [String.lt_iff_toList_lt]
  decide

/-- C3, amended: node selection returns an active node whose self-reported
trabajos_activos is minimal among all active respondents; ties are broken by
the earliest position in the NameServer enumeration (Python min keeps the
first minimal element), not by lexicographic node id; and selection is
deterministic — two selections over the same registry state agree. -/
theorem seleccion_nodo_minimo (nodos : List String)
    (estadoDe : String → Option EstadoNodo) :
    (∀ n, obtenerNodoOptimo nodos estadoDe = some n →
      n ∈ nodos ∧ ∃ e, estadoDe n = some e ∧ e.estado = "activo" ∧
        ∀ m em, m ∈ nodos → estadoDe m = some em → em.estado = "activo" →
          carga e ≤ carga em) ∧
    (∀ x xs, candidatos nodos estadoDe = x :: xs →
      (∀ y ∈ xs, carga x.2 ≤ carga y.2) →
      obtenerNodoOptimo nodos estadoDe = some x.1) ∧
    (∀ n1 n2, obtenerNodoOptimo nodos estadoDe = some n1 →
      obtenerNodoOptimo nodos estadoDe = some n2 → n1 = n2) := by
  refine ⟨?_, ?_, ?_⟩
  · intro n hn
    unfold obtenerNodoOptimo at hn
    by_cases hvac : nodos.isEmpty
    · rw [if_pos hvac] at hn
      exact Option.noConfusion hn
    rw [if_neg hvac] at hn
    cases hc : candidatos nodos estadoDe with
    | nil =>
      rw [hc] at hn
      exact Option.noConfusion hn
    | cons x xs =>
      rw [hc] at hn
      dsimp only at hn
      obtain rfl : (primerMinimoAux (fun q => carga q.2) x xs).1 = n :=
        Option.some_injective _ hn
      set p := primerMinimoAux (fun q => carga q.2) x xs with hp
      have hmem : p ∈ candidatos nodos estadoDe := by
        rw [hc]
        rcases primerMinimoAux_mem (fun q => carga q.2) xs x with h | h
        · rw [hp, h]; exact List.mem_cons_self x xs
        · exact List.mem_cons_of_mem x h
      obtain ⟨hpn, hpe, hpact⟩ := mem_candidatos.mp hmem
      refine ⟨hpn, p.2, hpe, hpact, ?_⟩
      intro m em hm hme hmact
      have hmcand : (m, em) ∈ candidatos nodos estadoDe := mem_candidatos.mpr ⟨hm, hme, hmact⟩
      rw [hc] at hmcand
      rcases List.mem_cons.mp hmcand with h | h
      · have hem : em = x.2 := by rw [← h]
        rw [hem]
        exact primerMinimoAux_le_mejor (fun q => carga q.2) xs x
      · exact primerMinimoAux_le (fun q => carga q.2) xs x (m, em) h
  · intro x xs hc hmin
    have hvac : ¬ nodos.isEmpty := by
      intro h
      have hnil : nodos = [] := by simpa using h
      rw [hnil] at hc
      exact List.noConfusion (hc.symm.trans rfl).symm
    unfold obtenerNodoOptimo
    rw [if_neg hvac, hc]
    dsimp only
    rw [primerMinimoAux_primero (fun q => carga q.2) xs x hmin]
  · intro n1 n2 h1 h2
    rw [h1] at h2
    exact Option.some_injective _ h2

/-- C3, witness for the amended theorem: the tied head candidate "b" is
selected from the enumeration ["b", "a"]. -/
theorem seleccion_nodo_minimo_witness :
    obtenerNodoOptimo ["b", "a"] orcEmpate = some "b" :=
  (seleccion_nodo_minimo ["b", "a"] orcEmpate).2.1
    ("b", { estado := "activo", trabajos_activos := some 0, capacidad_maxima := some 5 })
    [("a", { estado := "activo", trabajos_activos := some 0, capacidad_maxima := some 5 })]
    rfl (by decide)

/-- C5, counterexample: a node that answers its probe as active but self-reports
trabajos_activos = 5 is excluded by gestor_nodos.obtener_nodo_disponible — the
selection returns none although the refreshed registry holds the node as
active — because of the hard trabajos_activos < 5 admission cap. -/
theorem gestor_excluye_nodo_activo_por_carga :
    (obtenerNodoDisponible orcCargado registroUnNodo).1 = none ∧
    activoEn (obtenerNodoDisponible orcCargado registroUnNodo).2 "n1" = some true ∧
    ((obtenerNodoDisponible orcCargado registroUnNodo).2.map (fun p => trabajosDe p.2)) =
      [5] :=
  ⟨rfl, rfl, rfl⟩

/-- C5, amended: the load balancer obtener_nodo_optimo never excludes an
active node for load — every active respondent enters the candidate list
whatever its trabajos_activos, and selection succeeds whenever one exists —
but the legacy gestor_nodos.obtener_nodo_disponible does apply admission
control: it only ever returns nodes reporting fewer than 5 trabajos_activos. -/
theorem seleccion_sin_control_de_admision :
    (∀ (nodos : List String) (estadoDe : String → Option EstadoNodo) (n : String)
      (e : EstadoNodo), n ∈ nodos → estadoDe n = some e → e.estado = "activo" →
        (n, e) ∈ candidatos nodos estadoDe ∧ obtenerNodoOptimo nodos estadoDe ≠ none) ∧
    (∀ (probe : String → Option EstadoNodo) (s : RegistroNodos) (sel : String × InfoNodo),
      (obtenerNodoDisponible probe s).1 = some sel →
        sel.2.activo = true ∧ trabajosDe sel.2 < 5) := by
  constructor
  · intro nodos estadoDe n e hn he hact
    have hcand : (n, e) ∈ candidatos nodos estadoDe := mem_candidatos.mpr ⟨hn, he, hact⟩
    refine ⟨hcand, ?_⟩
    unfold obtenerNodoOptimo
    have hvac : ¬ nodos.isEmpty := by
      intro h
      have hnil : nodos = [] := by simpa using h
      rw [hnil] at hn
      exact List.not_mem_nil n hn
    rw [if_neg hvac]
    cases hc : candidatos nodos estadoDe with
    | nil =>
      rw [hc] at hcand
      exact absurd hcand (List.not_mem_nil (n, e))
    | cons x xs => exact fun hcontra => Option.noConfusion hcontra
  · intro probe s sel hsel
    exact (seleccion_en_activos probe s sel hsel).2

/-- C5, witness: a lone active node self-reporting a million running jobs is
still selected by the load balancer. -/
theorem seleccion_sin_control_de_admision_witness :
    obtenerNodoOptimo ["n1"]
      (fun _ => some { estado := "activo", trabajos_activos := some 1000000
                       capacidad_maxima := some 5 }) ≠ none :=
  (seleccion_sin_control_de_admision.1 ["n1"]
    (fun _ => some { estado := "activo", trabajos_activos := some 1000000
                     capacidad_maxima := some 5 })
    "n1" { estado := "activo", trabajos_activos := some 1000000, capacidad_maxima := some 5 }
    (List.mem_cons_self "n1" []) rfl rfl).2

/-- C2, counterexample: in the manager the individual-batch coordinator
actually uses (GestorNodoImpl + BalanceadorCargaNodos), a failed dispatch marks
nothing inactive — there is no registry to mark — so with an unchanged status
oracle (no probe transition at all) the very next selection returns the same
node "n1" that just failed, contradicting the claim that every subsequent
selection avoids the failed node until a probe flips it back. -/
theorem fallo_despacho_no_excluye_nodo :
    obtenerNodoOptimo ["n1"] orcEmpate = some "n1" ∧
    ejecutarTrabajoEnNodoFastAPI ["n1"] orcEmpate despachoFalla =
      { exito := false, error := some "Error en despacho", ruta_resultado := none } ∧
    obtenerNodoOptimo ["n1"] orcEmpate = some "n1" :=
  ⟨rfl, rfl, rfl⟩

/-- C2, amended: in the legacy manager gestor_nodos.GestorNodosImpl (used by
the legacy batch coordinator), when the remote call raises, the node is marked
inactive in the registry and the returned job outcome is the structured
failure; afterwards, any selection whose health probe of that node fails
returns a different node — only a successful probe can reactivate it. -/
theorem despacho_fallido_marca_inactivo (probe : String → Option EstadoNodo)
    (despacho : String → DespachoLegado) (s : RegistroNodos)
    (nodo : String × InfoNodo) (msg : String)
    (hsel : (obtenerNodoDisponible probe s).1 = some nodo)
    (hfail : despacho nodo.1 = .exc msg) :
    (ejecutarTrabajoEnNodoLegado probe despacho s).1.exito = false ∧
    (ejecutarTrabajoEnNodoLegado probe despacho s).1.error =
      some ("Error en nodo " ++ nodo.1 ++ ": " ++ msg) ∧
    activoEn (ejecutarTrabajoEnNodoLegado probe despacho s).2 nodo.1 = some false ∧
    (∀ (probe2 : String → Option EstadoNodo) (sel2 : String × InfoNodo),
      probe2 nodo.1 = none →
      (obtenerNodoDisponible probe2 (ejecutarTrabajoEnNodoLegado probe despacho s).2).1 =
        some sel2 → sel2.1 ≠ nodo.1) := by
  have hpair : obtenerNodoDisponible probe s = (some nodo, actualizarEstadoNodos probe s) := by
    rw [← obtenerNodoDisponible_snd probe s, ← hsel]
  have hexec : ejecutarTrabajoEnNodoLegado probe despacho s =
      ({ exito := false
         error := some ("Error en nodo " ++ nodo.1 ++ ": " ++ msg)
         ruta_resultado := none },
       marcarInactivo nodo.1 (actualizarEstadoNodos probe s)) := by
    unfold ejecutarTrabajoEnNodoLegado
    rw [hpair]
    dsimp only
    rw [hfail]
  rw [hexec]
  have hmem : nodo ∈ actualizarEstadoNodos probe s :=
    (seleccion_en_activos probe s nodo hsel).1
  refine ⟨rfl, rfl, ?_, ?_⟩
  · exact activoEn_marcarInactivo _ nodo.1 ⟨nodo, hmem, rfl⟩
  · intro probe2 sel2 hp2 hsel2
    exact seleccion_excluye_probe_fallido probe2 _ nodo.1 hp2 sel2 hsel2

/-- C2, witness for the amended theorem: one registered node, a successful
probe, a raising dispatch — the node ends up inactive in the final registry. -/
theorem despacho_fallido_marca_inactivo_witness :
    activoEn (ejecutarTrabajoEnNodoLegado orcEmpate despachoExc registroUnNodo).2 "n1" =
      some false :=
  (despacho_fallido_marca_inactivo orcEmpate despachoExc registroUnNodo
    ("n1", { activo := true
             estado := some { estado := "activo", trabajos_activos := some 0
                              capacidad_maxima := some 5 } })
    "fallo simulado" rfl rfl).2.2.1

end ServidorApi
